import Mathlib

/-!
Shallow embedding of the Cortensor Validation Ops Agent
(src/agent/agent.py) and verification of its specification.

Modelling conventions:
* Python/numpy float64 values are modelled as exact rationals (real-number
  semantics of the arithmetic the code performs); the only places where a
  square root appears (numpy std, used in the z-score and in the
  coefficient of variation) are handled by exact squared-form comparisons
  inside the executable definitions, and the correspondence with the
  square-root form is stated over the reals in the theorems.
* numpy division-by-zero semantics (0/0 = NaN, x/0 = ±inf, NaN > t = false)
  is modelled explicitly by case distinction where it can occur.
* Python int() truncates toward zero; this is pyInt below.
* The two network calls of the orchestrator are modelled as explicit
  optional inputs (the service answers), and datetime.now() as an
  explicit timestamp argument: these are the only impure inputs.
-/

namespace TrustOps

/- ==================== Configuration (agent.py lines 19-22) ==================== -/

def VALIDATION_THRESHOLD : ℤ := 70
def MIN_WORKERS : ℕ := 3
/-- SIMILARITY_THRESHOLD = 0.75 (line 22); this is the (unused) default of
the threshold parameter of detect_outliers. -/
def SIMILARITY_THRESHOLD : ℚ := 3/4

/- ==================== Data models (agent.py lines 25-45) ==================== -/

/-- WorkerResponse dataclass (lines 31-37). -/
structure WorkerResponse where
  worker : String
  response : String
  response_hash : String
  inference_time_ms : ℤ
  similarity_score : ℚ
deriving DecidableEq

/-- TrustScore dataclass (lines 39-45). -/
structure TrustScore where
  score : ℤ
  consensus_reached : Bool
  outlier_count : ℤ
  avg_similarity : ℚ
  evidence_cid : String
deriving DecidableEq

/-- The JSON body returned by the external POST /validate endpoint, as read
by _compute_trust_score (lines 120-127): the five fields the code accesses. -/
structure ValidateResponse where
  trustScore : ℤ
  consensusReached : Bool
  outlierCount : ℤ
  avgSimilarity : ℚ
  ipfsCid : String
deriving DecidableEq

/- ==================== numpy helpers ==================== -/

/-- numpy .mean() of a 1-d array.  For the empty array numpy yields NaN;
here 0/0 = 0 (the embedding never relies on the empty case). -/
def npMean (xs : List ℚ) : ℚ := xs.sum / (xs.length : ℚ)

/-- numpy .std()**2, the population variance: mean of squared deviations. -/
def popVar (xs : List ℚ) : ℚ := npMean (xs.map (fun x => (x - npMean xs)^2))

/-- similarity_matrix.mean(axis=1) (line 153): the row means. -/
def rowMeans (M : List (List ℚ)) : List ℚ := M.map npMean

/-- numpy .mean() of a 2-d array: total sum over total element count
(lines 185 and 295). -/
def npMean2 (M : List (List ℚ)) : ℚ :=
  (M.map List.sum).sum / (((M.map List.length).sum : ℕ) : ℚ)

/-- Python int(x): truncation toward zero. -/
def pyInt (q : ℚ) : ℤ := if 0 ≤ q then ⌊q⌋ else -⌊-q⌋

/- ==================== detect_outliers (agent.py lines 143-161) ==================== -/

/-- detect_outliers (lines 143-161).  The threshold parameter (Python
default SIMILARITY_THRESHOLD = 0.75) is NOT used by the body: the cutoff
is the hard-coded 2.0 of line 159.  The code computes
  z_i = |avg_i - mean| / std        (line 158, std = sqrt of popVar)
and flags z_i > 2.0.  For std ≠ 0 this is the squared comparison
(avg_i - mean)^2 > 2^2 * var used below.  For std = 0 numpy produces
0/0 = NaN (when avg_i = mean, which is always the case at std = 0) or
±inf (otherwise), and NaN > 2.0 is false while inf > 2.0 is true; both
branches are modelled. -/
def detect_outliers (similarity_matrix : List (List ℚ)) (threshold : ℚ) : List Bool :=
  let _ := threshold  -- received but never read, exactly as in the source
  let avg_similarities := rowMeans similarity_matrix
  let mean_similarity := npMean avg_similarities
  let var := popVar avg_similarities
  avg_similarities.map (fun ai =>
    if var = 0 then
      if ai - mean_similarity = 0 then false  -- 0/0 = NaN, NaN > 2.0 = false
      else true                               -- x/0 = ±inf, |±inf| > 2.0 = true
    else decide ((ai - mean_similarity)^2 > 4 * var))

/-- Whether the z-score computation of line 158 produces a NaN: this
happens exactly when the standard deviation is 0 and some numerator is 0
(0/0 in IEEE arithmetic). -/
def zscore_nan (similarity_matrix : List (List ℚ)) : Bool :=
  let avg_similarities := rowMeans similarity_matrix
  let mean_similarity := npMean avg_similarities
  let var := popVar avg_similarities
  decide (var = 0) && avg_similarities.any (fun ai => ai - mean_similarity = 0)

/- ==================== calculate_consensus_score (agent.py lines 163-203) ==================== -/

/-- valid_indices (line 178): indices whose outlier flag is false, in order. -/
def valid_indices (outlier_flags : List Bool) : List ℕ :=
  (outlier_flags.enum.filter (fun p => !p.2)).map Prod.fst

/-- similarity_matrix[np.ix_(idx, idx)] (line 184).  Out-of-range indices
(which would raise in Python) read as 0; all uses keep indices in range. -/
def submatrix (M : List (List ℚ)) (idx : List ℕ) : List (List ℚ) :=
  idx.map (fun i => idx.map (fun j => (M.getD i []).getD j 0))

/-- Semantic similarity component (lines 183-186):
min(60, int(avg_similarity * 60)) over the non-outlier submatrix. -/
def similarity_component (M : List (List ℚ)) (outlier_flags : List Bool) : ℤ :=
  min 60 (pyInt (npMean2 (submatrix M (valid_indices outlier_flags)) * 60))

/-- Consensus component (lines 188-190): int(20 * valid/total).  A total
of 0 would raise ZeroDivisionError in Python; here k/0 = 0.  The guard of
line 180 means the component is only reached with at least one valid
index, so total ≥ 1 whenever flags are index-aligned with responses. -/
def consensus_component (outlier_flags : List Bool) (total : ℕ) : ℤ :=
  pyInt (((valid_indices outlier_flags).length : ℚ) / (total : ℚ) * 20)

/-- Inference times of the non-outlier responses (line 193).  Python
would raise IndexError out of range; here a dummy response is read. -/
def valid_times (responses : List WorkerResponse) (outlier_flags : List Bool) : List ℚ :=
  (valid_indices outlier_flags).map
    (fun i => ((responses.getD i ⟨"", "", "", 0, 0⟩).inference_time_ms : ℚ))

/-- Response-time consistency component (lines 192-197):
  cv  = std/mean if mean > 0 else 1
  pts = max(0, int(10 * (1 - cv))).
For mean ≤ 0 the component is max(0, int(10*(1-1))) = 0.  For mean > 0,
max(0, int(10*(1-cv))) is the greatest k in [0,10] with k ≤ 10*(1-cv),
i.e. with std ≤ mean*(10-k)/10, i.e. with 100*var ≤ mean^2*(10-k)^2
(all sides nonnegative), and 0 when no such k exists (cv > 1). -/
def time_component (times : List ℚ) : ℤ :=
  let m := npMean times
  if 0 < m then
    (((List.range 11).filter
        (fun k : ℕ => decide (100 * popVar times ≤ m^2 * ((10 : ℚ) - (k : ℚ))^2))).foldr max 0 : ℕ)
  else 0

/-- calculate_consensus_score (lines 163-203). -/
def calculate_consensus_score (responses : List WorkerResponse)
    (similarity_matrix : List (List ℚ)) (outlier_flags : List Bool) : ℤ :=
  if valid_indices outlier_flags = [] then 0
  else
    let similarity_score := similarity_component similarity_matrix outlier_flags
    let consensus_score := consensus_component outlier_flags responses.length
    let time_score := time_component (valid_times responses outlier_flags)
    let reputation_score : ℤ := 10  -- line 200, simplified constant
    min 100 (similarity_score + consensus_score + time_score + reputation_score)

/- ==================== calculate_semantic_similarity (agent.py lines 131-141) ==================== -/

/-- Dot product of two embedding vectors (rational coordinates). -/
def dotQ (u v : List ℚ) : ℚ := (List.zipWith (· * ·) u v).sum

/-- sklearn cosine_similarity of two vectors: ⟨u,v⟩ / (‖u‖·‖v‖).  A zero
vector gives 0/0 = 0 here, matching the sklearn zero-norm guard (a zero
vector stays zero after normalization, so its similarities are 0). -/
noncomputable def cosineSim (u v : List ℚ) : ℝ :=
  ((dotQ u v : ℚ) : ℝ) / (Real.sqrt ((dotQ u u : ℚ) : ℝ) * Real.sqrt ((dotQ v v : ℚ) : ℝ))

/-- sklearn.metrics.pairwise.cosine_similarity on a stack of N vectors
(line 140): the N x N matrix of pairwise cosine similarities. -/
noncomputable def cosine_similarity (vecs : List (List ℚ)) : List (List ℝ) :=
  vecs.map (fun u => vecs.map (fun v => cosineSim u v))

/-- calculate_semantic_similarity (lines 131-141): embed every response
text with the external embedder, then take pairwise cosine similarity.
The embedder (SentenceTransformer, line 139) is an external capability
and enters as a function argument. -/
noncomputable def calculate_semantic_similarity (embedder : String → List ℚ)
    (responses : List String) : List (List ℝ) :=
  cosine_similarity (responses.map embedder)

/- ==================== Evidence bundle (agent.py lines 262-303) ==================== -/

/-- JSON values, as produced by the Python dict literal of lines 274-303.
Numbers are split by the Python type the code puts there (int vs float). -/
inductive Json where
  | str (s : String)
  | int (n : ℤ)
  | rat (q : ℚ)
  | bool (b : Bool)
  | arr (xs : List Json)
  | obj (fields : List (String × Json))

/-- Top-level keys of a JSON object, in order. -/
def Json.topKeys : Json → List String
  | .obj fs => fs.map Prod.fst
  | _ => []

/-- Look a field up in a JSON object. -/
def Json.getField : Json → String → Option Json
  | .obj fs, k => (fs.find? (fun p => p.1 == k)).map Prod.snd
  | _, _ => none

/-- Replace the value of one field of a JSON object. -/
def Json.setField : Json → String → Json → Json
  | .obj fs, k, v => .obj (fs.map (fun p => if p.1 == k then (p.1, v) else p))
  | j, _, _ => j

/-- generate_evidence_bundle (lines 262-303).  datetime.now().isoformat()
(line 277) is the single impure read of the function and enters as the
explicit argument now. -/
def generate_evidence_bundle (validation_id : String) (responses : List WorkerResponse)
    (similarity_matrix : List (List ℚ)) (outlier_flags : List Bool)
    (trust_score : ℤ) (now : String) : Json :=
  .obj [
    ("version", .str "1.0.0"),
    ("validationId", .str validation_id),
    ("timestamp", .str now),
    ("trustScore", .int trust_score),
    ("consensusReached", .bool (decide (VALIDATION_THRESHOLD ≤ trust_score))),
    ("proofOfInference", .obj [
      ("workerCount", .int responses.length),
      ("responses", .arr (responses.map (fun r => .obj [
        ("worker", .str r.worker),
        ("responseHash", .str r.response_hash),
        ("inferenceTimeMs", .int r.inference_time_ms),
        ("similarityScore", .rat r.similarity_score)])))]),
    ("proofOfUsefulWork", .obj [
      ("semanticSimilarityMatrix", .arr (similarity_matrix.map (fun row => .arr (row.map Json.rat)))),
      ("outlierFlags", .arr (outlier_flags.map Json.bool)),
      ("avgSimilarity", .rat (npMean2 similarity_matrix)),
      ("outlierCount", .int (outlier_flags.count true))]),
    ("verification", .obj [
      ("method", .str "cortensor-poi-pouw"),
      ("algorithm", .str "cosine-similarity + outlier-detection"),
      ("threshold", .int VALIDATION_THRESHOLD)])]

/- ==================== Orchestrator (agent.py lines 66-127) ==================== -/

/-- Failure kinds named by the error model of the specification. -/
inductive FailReason where
  | DispatchFailure
  | QuorumTimeout
  | ComputationError
deriving DecidableEq

/-- Round states of the orchestrator state machine of the specification. -/
inductive RoundState where
  | REQUESTED
  | AWAITING_RESPONSES
  | SCORED
  | RECORDED
  | FAILED (reason : FailReason)
deriving DecidableEq

/-- Embedding of _compute_trust_score (lines 114-127): the TrustScore is built by
copying fields verbatim from the reply of the external validation service;
no local check relates score and consensusReached. -/
def compute_trust_score_of (data : ValidateResponse) : TrustScore :=
  { score := data.trustScore
    consensus_reached := data.consensusReached
    outlier_count := data.outlierCount
    avg_similarity := data.avgSimilarity
    evidence_cid := data.ipfsCid }

/-- validate_output (lines 66-103).  The two service replies are the
impure inputs (none = the HTTP call / JSON field access raises).
responses_available is the number of worker responses that exist when
the fixed 2-second sleep of line 86 elapses; the source never reads it:
there is no quorum check, no timeout, and no FAILED transition — the
round always proceeds to scoring and history recording. -/
def validate_output (infer_reply : Option String)
    (validate_reply : Option ValidateResponse)
    (responses_available : ℕ) : Option TrustScore × List RoundState :=
  let _ := responses_available  -- never consulted by the source
  match infer_reply with
  | none => (none, [.REQUESTED, .FAILED .DispatchFailure])
  | some _ =>
    match validate_reply with
    | none => (none, [.REQUESTED, .AWAITING_RESPONSES, .FAILED .ComputationError])
    | some data =>
      (some (compute_trust_score_of data), [.REQUESTED, .AWAITING_RESPONSES, .SCORED, .RECORDED])

/- ==================== Spec-side definitions (for refinement comparison) ==================== -/

/-- The formula the specification gives for the restricted mean: the sum of all
entries of the similarity matrix over index pairs drawn from V, divided
by |V| squared (spec 4.1 point 1: mean of the sub-matrix, diagonal
included). -/
def spec_submatrix_mean (M : List (List ℚ)) (V : List ℕ) : ℚ :=
  (V.map (fun i => (V.map (fun j => (M.getD i []).getD j 0)).sum)).sum
    / ((V.length : ℚ) * (V.length : ℚ))

/- ==================== Concrete inputs for counterexamples and witnesses ==================== -/

/-- A worker response with a given inference time. -/
def mkR (t : ℤ) : WorkerResponse := ⟨"w", "r", "h", t, 0⟩

/-- Symmetric 7 x 7 matrix, diagonal 1, entries in [-1,1]: the three
non-outlier responses are pairwise dissimilar (cosine -1). -/
def M7 : List (List ℚ) :=
  [[1,-1,-1,0,0,0,0],
   [-1,1,-1,0,0,0,0],
   [-1,-1,1,0,0,0,0],
   [0,0,0,1,0,0,0],
   [0,0,0,0,1,0,0],
   [0,0,0,0,0,1,0],
   [0,0,0,0,0,0,1]]

def rs7 : List WorkerResponse := [mkR 0, mkR 0, mkR 3, mkR 1, mkR 1, mkR 1, mkR 1]

def flags7 : List Bool := [false, false, false, true, true, true, true]

/-- Symmetric 3 x 3 matrix, diagonal 1: agreement scores [2/3, 2/3, 1/3],
population variance 2/81, z-scores [1/√2, 1/√2, √2]. -/
def M3z : List (List ℚ) := [[1,1,0],[1,1,0],[0,0,1]]

/-- Symmetric 3 x 3 matrix, diagonal 1, off-diagonal -0.94: full mean
-22/75, and -22/75 * 60 = -17.6 truncates to -17 but floors to -18. -/
def M3n : List (List ℚ) :=
  [[1,-47/50,-47/50],[-47/50,1,-47/50],[-47/50,-47/50,1]]

/-- Like M7 but with off-diagonal -0.95 among the non-outlier block: the
total score comes out exactly 0 although the non-outlier set is nonempty. -/
def M7b : List (List ℚ) :=
  [[1,-19/20,-19/20,0,0,0,0],
   [-19/20,1,-19/20,0,0,0,0],
   [-19/20,-19/20,1,0,0,0,0],
   [0,0,0,1,0,0,0],
   [0,0,0,0,1,0,0],
   [0,0,0,0,0,1,0],
   [0,0,0,0,0,0,1]]

/-- A validation-service reply whose consensus flag contradicts its score. -/
def respBad : ValidateResponse := ⟨50, true, 0, 1, "cid-b"⟩

/-- A normal validation-service reply. -/
def respOk : ValidateResponse := ⟨85, true, 0, 92/100, "cid-a"⟩

/- ==================== Shared lemmas ==================== -/

lemma pyInt_nonneg {q : ℚ} (h : 0 ≤ q) : 0 ≤ pyInt q := by
  unfold pyInt
  rw [if_pos h]
  exact Int.le_floor.mpr (by exact_mod_cast h)

lemma pyInt_eq_floor {q : ℚ} (h : 0 ≤ q) : pyInt q = ⌊q⌋ := if_pos h

lemma similarity_component_le (M : List (List ℚ)) (flags : List Bool) :
    similarity_component M flags ≤ 60 :=
  min_le_left _ _

lemma similarity_component_nonneg {M : List (List ℚ)} {flags : List Bool}
    (h : 0 ≤ npMean2 (submatrix M (valid_indices flags))) :
    0 ≤ similarity_component M flags :=
  le_min (by norm_num) (pyInt_nonneg (mul_nonneg h (by norm_num)))

lemma consensus_component_nonneg (flags : List Bool) (n : ℕ) :
    0 ≤ consensus_component flags n := by
  unfold consensus_component
  apply pyInt_nonneg
  positivity

lemma foldr_max_le {l : List ℕ} {c : ℕ} (h : ∀ x ∈ l, x ≤ c) : l.foldr max 0 ≤ c := by
  induction l with
  | nil => simp
  | cons a t ih =>
      exact max_le (h a (List.mem_cons_self a t)) (ih fun x hx => h x (List.mem_cons_of_mem a hx))

lemma time_component_nonneg (ts : List ℚ) : 0 ≤ time_component ts := by
  by_cases h : 0 < npMean ts
  · simp only [time_component, if_pos h]
    exact Int.natCast_nonneg _
  · simp only [time_component, if_neg h]
    norm_num

lemma time_component_le_ten (ts : List ℚ) : time_component ts ≤ 10 := by
  by_cases hm : 0 < npMean ts
  · simp only [time_component, if_pos hm]
    have h : ((List.range 11).filter
        (fun k : ℕ => decide (100 * popVar ts ≤ (npMean ts)^2 * ((10 : ℚ) - (k : ℚ))^2))).foldr
          max 0 ≤ 10 := by
      apply foldr_max_le
      intro x hx
      have hx' : x ∈ List.range 11 := List.mem_of_mem_filter hx
      exact Nat.lt_succ_iff.mp (List.mem_range.mp hx')
    exact_mod_cast h
  · simp only [time_component, if_neg hm]
    norm_num

lemma sum_map_const_of {α : Type} (l : List α) (c : ℕ) (f : α → ℕ)
    (h : ∀ x ∈ l, f x = c) : (l.map f).sum = l.length * c := by
  induction l with
  | nil => simp
  | cons a t ih =>
      simp only [List.map_cons, List.sum_cons, List.length_cons,
        h a (List.mem_cons_self a t), ih fun x hx => h x (List.mem_cons_of_mem a hx)]
      ring

/-- The mean the code takes of the restricted submatrix coincides with the
formula of the specification: sum over pairs of valid indices divided by the
square of the count of valid indices. -/
lemma npMean2_submatrix (M : List (List ℚ)) (V : List ℕ) :
    npMean2 (submatrix M V) = spec_submatrix_mean M V := by
  unfold npMean2 spec_submatrix_mean submatrix
  have hnum : ((V.map (fun i => V.map (fun j => (M.getD i []).getD j 0))).map List.sum)
      = V.map (fun i => (V.map (fun j => (M.getD i []).getD j 0)).sum) := by
    rw [List.map_map]
    rfl
  have hden : ((V.map (fun i => V.map (fun j => (M.getD i []).getD j 0))).map List.length).sum
      = V.length * V.length := by
    rw [List.map_map]
    exact sum_map_const_of V V.length _ (fun x _ => by simp)
  rw [hnum, hden]
  push_cast
  rfl

lemma popVar_nonneg (xs : List ℚ) : 0 ≤ popVar xs := by
  unfold popVar npMean
  apply div_nonneg _ (by positivity)
  apply List.sum_nonneg
  intro x hx
  obtain ⟨y, _, rfl⟩ := List.mem_map.mp hx
  positivity

lemma getD_map_of_lt {α β : Type _} (l : List α) (f : α → β) (i : ℕ)
    (hi : i < l.length) (d : α) (d' : β) :
    (l.map f).getD i d' = f (l.getD i d) := by
  have h1 : i < (l.map f).length := by simpa using hi
  rw [List.getD_eq_getElem _ _ h1, List.getD_eq_getElem _ _ hi, List.getElem_map]

/-- For a positive variance v, the z-score condition |d| / sqrt v > 2 is
the squared condition d^2 > 4 v. -/
lemma two_lt_div_sqrt_iff (d v : ℝ) (hv : 0 < v) :
    2 < |d| / Real.sqrt v ↔ 4 * v < d ^ 2 := by
  rw [lt_div_iff₀ (Real.sqrt_pos.mpr hv)]
  have h4 : (2 : ℝ) * Real.sqrt v = Real.sqrt (4 * v) := by
    rw [Real.sqrt_mul (by norm_num : (0:ℝ) ≤ 4) v,
      show Real.sqrt 4 = 2 by
        rw [show (4:ℝ) = 2^2 by norm_num, Real.sqrt_sq (by norm_num : (0:ℝ) ≤ 2)]]
  rw [h4, ← Real.sqrt_sq_eq_abs, Real.sqrt_lt_sqrt_iff (by positivity)]

lemma dotQ_comm (u v : List ℚ) : dotQ u v = dotQ v u := by
  unfold dotQ
  induction u generalizing v with
  | nil => cases v <;> rfl
  | cons a t ih =>
    cases v with
    | nil => rfl
    | cons b s => simp only [List.zipWith_cons_cons, List.sum_cons, mul_comm a b, ih s]

lemma dotQ_self_nonneg (v : List ℚ) : 0 ≤ dotQ v v := by
  unfold dotQ
  induction v with
  | nil => simp
  | cons a t ih =>
    simp only [List.zipWith_cons_cons, List.sum_cons]
    exact add_nonneg (mul_self_nonneg a) ih

lemma cosineSim_comm (u v : List ℚ) : cosineSim u v = cosineSim v u := by
  unfold cosineSim
  rw [dotQ_comm u v, mul_comm]

lemma cosineSim_self {v : List ℚ} (h : dotQ v v ≠ 0) : cosineSim v v = 1 := by
  unfold cosineSim
  rw [Real.mul_self_sqrt (by exact_mod_cast dotQ_self_nonneg v)]
  apply div_self
  exact_mod_cast h

/- ==================== Claim theorems ==================== -/

/-- C1 (counterexample): on the 7 x 7 symmetric, diagonal-1 matrix M7 with
entries in [-1,1], three non-outlier responses that are pairwise dissimilar
(cosine -1) give trust score -2, outside [0,100]; and on M7b the score is
exactly 0 although the non-outlier set is nonempty, so the returned score
is neither always in [0,100] nor 0 only when the non-outlier set is empty. -/
theorem C1_counterexample :
    calculate_consensus_score rs7 M7 flags7 = -2 ∧
    ¬ (0 ≤ calculate_consensus_score rs7 M7 flags7 ∧
        calculate_consensus_score rs7 M7 flags7 ≤ 100) ∧
    calculate_consensus_score rs7 M7b flags7 = 0 ∧
    valid_indices flags7 ≠ [] := by
  norm_num [calculate_consensus_score, valid_indices, flags7, rs7, M7, M7b, mkR,
    similarity_component, consensus_component, time_component, valid_times,
    submatrix, npMean2, npMean, popVar, pyInt, List.enum, List.enumFrom,
    List.range_succ, List.getD]
  decide

/-- C1 (amended): the trust score is an integer that never exceeds 100;
it is 0 whenever the set of non-outlier indices is empty; and whenever
that set is nonempty and the mean of the restricted similarity sub-matrix
is nonnegative (as it is for every true cosine Gram matrix), the score
lies in [10,100] and in particular is nonzero.  Without the nonnegativity
assumption the score can be negative or 0 with a nonempty non-outlier
set, as C1_counterexample shows. -/
theorem C1_score_bounds (responses : List WorkerResponse) (M : List (List ℚ))
    (flags : List Bool) :
    calculate_consensus_score responses M flags ≤ 100 ∧
    (valid_indices flags = [] → calculate_consensus_score responses M flags = 0) ∧
    (valid_indices flags ≠ [] →
      0 ≤ npMean2 (submatrix M (valid_indices flags)) →
      10 ≤ calculate_consensus_score responses M flags) := by
  by_cases h : valid_indices flags = []
  · simp [calculate_consensus_score, h]
  · simp only [calculate_consensus_score, if_neg h]
    refine ⟨min_le_left _ _, fun h0 => absurd h0 h, fun _ hm => ?_⟩
    refine le_min (by norm_num) ?_
    have h1 : 0 ≤ similarity_component M flags := similarity_component_nonneg hm
    have h2 : 0 ≤ consensus_component flags responses.length :=
      consensus_component_nonneg flags responses.length
    have h3 : 0 ≤ time_component (valid_times responses flags) :=
      time_component_nonneg (valid_times responses flags)
    linarith

/-- C1 (witness): a single non-outlier response over the 1 x 1 identity
matrix satisfies the hypotheses of C1_score_bounds and gets a score of at
least 10. -/
theorem C1_witness :
    valid_indices [false] ≠ [] ∧
    0 ≤ npMean2 (submatrix [[(1 : ℚ)]] (valid_indices [false])) ∧
    10 ≤ calculate_consensus_score [mkR 100] [[(1 : ℚ)]] [false] :=
  have h1 : valid_indices [false] ≠ [] := by decide
  have h2 : 0 ≤ npMean2 (submatrix [[(1 : ℚ)]] (valid_indices [false])) := by
    norm_num [npMean2, submatrix, valid_indices, List.enum, List.enumFrom, List.getD]
  ⟨h1, h2, (C1_score_bounds [mkR 100] [[(1 : ℚ)]] [false]).2.2 h1 h2⟩

/-- C2 (code evidence): at the all-equal similarity matrices [[1]] and
[[1,1],[1,1]] (standard deviation 0), detect_outliers flags nothing, but
only because the naively divided z-scores are 0/0 = NaN and NaN > 2.0 is
false: the division by the standard deviation does produce NaN, with no
special case in the code. -/
theorem C2_zero_variance_naive_division :
    detect_outliers [[1]] (3/4) = [false] ∧
    zscore_nan [[1]] = true ∧
    detect_outliers [[1,1],[1,1]] (3/4) = [false, false] ∧
    zscore_nan [[1,1],[1,1]] = true := by
  norm_num [detect_outliers, zscore_nan, rowMeans, npMean, popVar]

/-- C3 (counterexample): with threshold 1 passed to detect_outliers, on
the matrix M3z (agreement scores [2/3, 2/3, 1/3], nonzero variance 2/81)
response 2 has z-score sqrt 2 > 1 and should be flagged per the claim,
yet the code flags nothing: the passed threshold is ignored in favour of
the hard-coded cutoff 2.0. -/
theorem C3_counterexample :
    detect_outliers M3z 1 = [false, false, false] ∧
    1 < |(((rowMeans M3z).getD 2 0 : ℚ) : ℝ) - ((npMean (rowMeans M3z) : ℚ) : ℝ)| /
          Real.sqrt ((popVar (rowMeans M3z) : ℚ) : ℝ) := by
  constructor
  · norm_num [detect_outliers, rowMeans, npMean, popVar, M3z]
  · have ha : (rowMeans M3z).getD 2 0 = 1/3 := by
      norm_num [rowMeans, npMean, M3z, List.getD]
    have hm : npMean (rowMeans M3z) = 5/9 := by norm_num [rowMeans, npMean, M3z]
    have hv : popVar (rowMeans M3z) = 2/81 := by norm_num [popVar, rowMeans, npMean, M3z]
    rw [ha, hm, hv]
    have habs : |((1/3 : ℚ) : ℝ) - ((5/9 : ℚ) : ℝ)| = 2/9 := by
      push_cast
      rw [show (1:ℝ)/3 - 5/9 = -(2/9) by norm_num, abs_neg, abs_of_pos (by norm_num)]
    rw [habs, lt_div_iff₀ (Real.sqrt_pos.mpr (by push_cast; norm_num)), one_mul]
    have : Real.sqrt (((2/81 : ℚ) : ℝ)) < 2/9 := by
      rw [show ((2/81 : ℚ) : ℝ) = 2/81 by push_cast; norm_num]
      exact (Real.sqrt_lt' (by norm_num)).mpr (by norm_num)
    exact this

/-- C3 (amended): for every similarity matrix with nonzero agreement-score
variance, every passed threshold value, and every index in range, the code
flags response i as an outlier exactly when its z-score
|agreement_i - mean| / stddev exceeds the hard-coded cutoff 2.0: the
threshold parameter (whose Python default is SIMILARITY_THRESHOLD = 0.75,
not 2.0) is never consulted. -/
theorem C3_cutoff_always_two (M : List (List ℚ)) (threshold : ℚ) (i : ℕ)
    (hv : popVar (rowMeans M) ≠ 0) (hi : i < (rowMeans M).length) :
    ((detect_outliers M threshold).getD i false = true ↔
      2 < |(((rowMeans M).getD i 0 : ℚ) : ℝ) - ((npMean (rowMeans M) : ℚ) : ℝ)| /
            Real.sqrt ((popVar (rowMeans M) : ℚ) : ℝ)) := by
  have hvpos : 0 < popVar (rowMeans M) := (popVar_nonneg (rowMeans M)).lt_of_ne (Ne.symm hv)
  have hflags : detect_outliers M threshold = (rowMeans M).map (fun ai =>
      if popVar (rowMeans M) = 0 then (if ai - npMean (rowMeans M) = 0 then false else true)
      else decide ((ai - npMean (rowMeans M))^2 > 4 * popVar (rowMeans M))) := rfl
  rw [hflags, getD_map_of_lt (rowMeans M) _ i hi 0 false, if_neg hv, decide_eq_true_iff,
    two_lt_div_sqrt_iff _ _ (by exact_mod_cast hvpos)]
  constructor
  · intro h
    exact_mod_cast h
  · intro h
    exact_mod_cast h

/-- C3 (witness): on M3z with passed threshold 5 and index 2, the variance
is nonzero, the index is in range, and the flag matches the hard-coded
z-score cutoff 2.0 (the response is not flagged since sqrt 2 < 2, even
though its z-score also does not exceed the passed 5). -/
theorem C3_witness :
    popVar (rowMeans M3z) ≠ 0 ∧ 2 < (rowMeans M3z).length ∧
    ((detect_outliers M3z 5).getD 2 false = true ↔
      2 < |(((rowMeans M3z).getD 2 0 : ℚ) : ℝ) - ((npMean (rowMeans M3z) : ℚ) : ℝ)| /
            Real.sqrt ((popVar (rowMeans M3z) : ℚ) : ℝ)) :=
  have h1 : popVar (rowMeans M3z) ≠ 0 := by
    norm_num [popVar, rowMeans, npMean, M3z]
  have h2 : 2 < (rowMeans M3z).length := by
    norm_num [rowMeans, M3z]
  ⟨h1, h2, C3_cutoff_always_two M3z 5 2 h1 h2⟩

/-- C4 (counterexample): on the symmetric diagonal-1 matrix M3n with
off-diagonal -0.94 and no outliers, the restricted mean is -22/75, so
mean * 60 = -17.6: Python int() in the code truncates to -17 while the
claimed floor gives -18, and the two disagree. -/
theorem C4_counterexample :
    similarity_component M3n [false, false, false] = -17 ∧
    min 60 ⌊spec_submatrix_mean M3n (valid_indices [false, false, false]) * 60⌋ = -18 ∧
    similarity_component M3n [false, false, false] ≠
      min 60 ⌊spec_submatrix_mean M3n (valid_indices [false, false, false]) * 60⌋ := by
  norm_num [similarity_component, spec_submatrix_mean, valid_indices, M3n,
    submatrix, npMean2, npMean, pyInt, List.enum, List.enumFrom, List.getD]

/-- C4 (amended): for every input with at least one non-outlier index, the
semantic-agreement component equals min(60, trunc(mean_similarity * 60)),
where mean_similarity is the mean of the similarity sub-matrix restricted
to the non-outlier indices (diagonal included) and trunc is Python
int(), truncation toward zero; whenever that mean is nonnegative this
coincides with the claimed min(60, floor(mean_similarity * 60)). -/
theorem C4_similarity_component_trunc (M : List (List ℚ)) (flags : List Bool)
    (_h : valid_indices flags ≠ []) :
    similarity_component M flags =
      min 60 (pyInt (spec_submatrix_mean M (valid_indices flags) * 60)) ∧
    (0 ≤ spec_submatrix_mean M (valid_indices flags) →
      similarity_component M flags =
        min 60 ⌊spec_submatrix_mean M (valid_indices flags) * 60⌋) := by
  have hmean := npMean2_submatrix M (valid_indices flags)
  constructor
  · unfold similarity_component
    rw [hmean]
  · intro hpos
    unfold similarity_component
    rw [hmean, pyInt_eq_floor (mul_nonneg hpos (by norm_num))]

/-- C4 (witness): the 1 x 1 identity with no outlier flag satisfies the
hypothesis of C4_similarity_component_trunc; the component is 60 there. -/
theorem C4_witness :
    valid_indices [false] ≠ [] ∧
    similarity_component [[(1 : ℚ)]] [false] =
      min 60 (pyInt (spec_submatrix_mean [[(1 : ℚ)]] (valid_indices [false]) * 60)) :=
  ⟨by decide, (C4_similarity_component_trunc [[(1 : ℚ)]] [false] (by decide)).1⟩

/-- C5: generate_evidence_bundle is a pure function of its inputs plus the
timestamp read: two bundles generated from identical inputs at different
times agree on every field once the timestamp field is set to a common
placeholder, hence serialize byte-identically except for the timestamp. -/
theorem C5_bundle_deterministic_modulo_timestamp (validation_id : String)
    (responses : List WorkerResponse) (M : List (List ℚ)) (flags : List Bool)
    (trust_score : ℤ) (t1 t2 placeholder : String) :
    (generate_evidence_bundle validation_id responses M flags trust_score t1).setField
        "timestamp" (.str placeholder) =
      (generate_evidence_bundle validation_id responses M flags trust_score t2).setField
        "timestamp" (.str placeholder) := by
  rfl

/-- C6: for every input, the evidence bundle is a JSON object with exactly
the top-level fields version, validationId, timestamp, trustScore,
consensusReached, proofOfInference, proofOfUsefulWork and verification, in
which proofOfInference has exactly the fields workerCount and responses
(an array), proofOfUsefulWork exactly semanticSimilarityMatrix,
outlierFlags, avgSimilarity and outlierCount, and verification exactly
method, algorithm and threshold. -/
theorem C6_bundle_shape (validation_id : String) (responses : List WorkerResponse)
    (M : List (List ℚ)) (flags : List Bool) (trust_score : ℤ) (now : String) :
    (generate_evidence_bundle validation_id responses M flags trust_score now).topKeys =
      ["version", "validationId", "timestamp", "trustScore", "consensusReached",
        "proofOfInference", "proofOfUsefulWork", "verification"] ∧
    ((generate_evidence_bundle validation_id responses M flags trust_score now).getField
        "proofOfInference").map Json.topKeys = some ["workerCount", "responses"] ∧
    ((generate_evidence_bundle validation_id responses M flags trust_score now).getField
        "proofOfUsefulWork").map Json.topKeys =
      some ["semanticSimilarityMatrix", "outlierFlags", "avgSimilarity", "outlierCount"] ∧
    ((generate_evidence_bundle validation_id responses M flags trust_score now).getField
        "verification").map Json.topKeys = some ["method", "algorithm", "threshold"] ∧
    (((generate_evidence_bundle validation_id responses M flags trust_score now).getField
        "proofOfInference").bind (fun j => j.getField "responses")) =
      some (.arr (responses.map (fun r => .obj [
        ("worker", .str r.worker),
        ("responseHash", .str r.response_hash),
        ("inferenceTimeMs", .int r.inference_time_ms),
        ("similarityScore", .rat r.similarity_score)]))) := by
  exact ⟨rfl, rfl, rfl, rfl, rfl⟩

/-- C7 (code evidence): with zero worker responses available after the
fixed two-second wait, validate_output still proceeds through
AWAITING_RESPONSES to SCORED and RECORDED, produces a TrustScore, and
never enters a FAILED state with a QuorumTimeout reason: the source has
no quorum check or timeout at all. -/
theorem C7_no_quorum_failure_path :
    validate_output (some "vid-1") (some respOk) 0 =
      (some (compute_trust_score_of respOk),
        [.REQUESTED, .AWAITING_RESPONSES, .SCORED, .RECORDED]) ∧
    RoundState.FAILED .QuorumTimeout ∉ (validate_output (some "vid-1") (some respOk) 0).2 ∧
    (validate_output (some "vid-1") (some respOk) 0).1 ≠ none := by
  refine ⟨rfl, ?_, ?_⟩ <;> decide

/-- C8 (counterexample): the TrustScore that validate_output returns
copies the consensus flag verbatim from the reply of the external validation
service, so a reply with trustScore 50 and consensusReached true yields a
TrustScore whose flag is true although its score is below the threshold 70. -/
theorem C8_counterexample :
    ((validate_output (some "vid-1") (some respBad) 3).1.map
        TrustScore.consensus_reached = some true) ∧
    ¬ (VALIDATION_THRESHOLD ≤
        (((validate_output (some "vid-1") (some respBad) 3).1.map TrustScore.score).getD 0)) := by
  decide

/-- C8 (amended): in the evidence bundle the consensusReached field is
true exactly when the trust score reaches VALIDATION_THRESHOLD = 70. -/
theorem C8_bundle_consensus_iff_threshold (validation_id : String)
    (responses : List WorkerResponse) (M : List (List ℚ)) (flags : List Bool)
    (trust_score : ℤ) (now : String) :
    (generate_evidence_bundle validation_id responses M flags trust_score now).getField
        "consensusReached" = some (.bool true) ↔ VALIDATION_THRESHOLD ≤ trust_score := by
  have h : (generate_evidence_bundle validation_id responses M flags trust_score now).getField
      "consensusReached" = some (.bool (decide (VALIDATION_THRESHOLD ≤ trust_score))) := rfl
  rw [h]
  simp

/-- C9: for every embedder and every list of N responses, the similarity
matrix is N x N, symmetric, and (whenever every embedding has nonzero
norm, i.e. nonzero self-dot-product) has diagonal exactly 1; for N = 1 it
is the 1 x 1 identity. -/
theorem C9_similarity_matrix_shape (embedder : String → List ℚ) (responses : List String)
    (h : ∀ r ∈ responses, dotQ (embedder r) (embedder r) ≠ 0) :
    (calculate_semantic_similarity embedder responses).length = responses.length ∧
    (∀ row ∈ calculate_semantic_similarity embedder responses,
      row.length = responses.length) ∧
    (∀ i j, i < responses.length → j < responses.length →
      ((calculate_semantic_similarity embedder responses).getD i []).getD j 0 =
        ((calculate_semantic_similarity embedder responses).getD j []).getD i 0) ∧
    (∀ i, i < responses.length →
      ((calculate_semantic_similarity embedder responses).getD i []).getD i 0 = 1) ∧
    (responses.length = 1 → calculate_semantic_similarity embedder responses = [[1]]) := by
  have hM : calculate_semantic_similarity embedder responses =
      (responses.map embedder).map
        (fun u => (responses.map embedder).map (fun v => cosineSim u v)) := rfl
  have hlen : (responses.map embedder).length = responses.length := List.length_map _ _
  have hentry : ∀ i j, i < responses.length → j < responses.length →
      ((calculate_semantic_similarity embedder responses).getD i []).getD j 0 =
        cosineSim ((responses.map embedder).getD i []) ((responses.map embedder).getD j []) := by
    intro i j hi hj
    rw [hM, getD_map_of_lt (responses.map embedder) _ i (by rw [hlen]; exact hi) [] [],
      getD_map_of_lt (responses.map embedder) _ j (by rw [hlen]; exact hj) [] 0]
  have hvec : ∀ i, i < responses.length →
      (responses.map embedder).getD i [] = embedder (responses.getD i "") := by
    intro i hi
    rw [getD_map_of_lt responses embedder i hi "" []]
  refine ⟨?_, ?_, ?_, ?_, ?_⟩
  · rw [hM]
    simp
  · intro row hrow
    rw [hM] at hrow
    obtain ⟨u, _, rfl⟩ := List.mem_map.mp hrow
    simp
  · intro i j hi hj
    rw [hentry i j hi hj, hentry j i hj hi, cosineSim_comm]
  · intro i hi
    rw [hentry i i hi hi, hvec i hi]
    apply cosineSim_self
    apply h
    rw [List.getD_eq_getElem _ _ hi]
    exact List.getElem_mem hi
  · intro h1
    obtain ⟨r, hr⟩ := List.length_eq_one.mp h1
    subst hr
    have hr0 : dotQ (embedder r) (embedder r) ≠ 0 := h r (by simp)
    show [[cosineSim (embedder r) (embedder r)]] = [[1]]
    rw [cosineSim_self hr0]

/-- C9 (witness): a one-response round with the constant embedder [1] has
a nonzero self-dot-product and its similarity matrix has diagonal 1. -/
theorem C9_witness :
    dotQ [(1 : ℚ)] [(1 : ℚ)] ≠ 0 ∧
    ((calculate_semantic_similarity (fun _ => [(1 : ℚ)]) ["q"]).getD 0 []).getD 0 0 = 1 :=
  have h : ∀ r ∈ (["q"] : List String),
      dotQ ((fun _ : String => [(1 : ℚ)]) r) ((fun _ : String => [(1 : ℚ)]) r) ≠ 0 := by
    intro r _
    norm_num [dotQ]
  ⟨by norm_num [dotQ],
    (C9_similarity_matrix_shape (fun _ => [(1 : ℚ)]) ["q"] h).2.2.2.1 0 (by norm_num)⟩

/-- C10: in every bundle, the avgSimilarity field is the mean of all
N x N entries of the similarity matrix (outlier rows, columns and the
diagonal included — unlike the semantic component of the trust score, which is
restricted to non-outlier indices), and outlierCount is the number of
true outlier flags. -/
theorem C10_pouw_fields (validation_id : String) (responses : List WorkerResponse)
    (M : List (List ℚ)) (flags : List Bool) (trust_score : ℤ) (now : String)
    (hrect : ∀ row ∈ M, row.length = M.length) :
    (((generate_evidence_bundle validation_id responses M flags trust_score now).getField
        "proofOfUsefulWork").bind (fun j => j.getField "avgSimilarity")) =
      some (.rat (M.flatten.sum / ((M.length : ℚ) * (M.length : ℚ)))) ∧
    (((generate_evidence_bundle validation_id responses M flags trust_score now).getField
        "proofOfUsefulWork").bind (fun j => j.getField "outlierCount")) =
      some (.int (flags.count true)) := by
  constructor
  · have h1 : (((generate_evidence_bundle validation_id responses M flags trust_score
        now).getField "proofOfUsefulWork").bind (fun j => j.getField "avgSimilarity")) =
          some (.rat (npMean2 M)) := rfl
    rw [h1]
    have h2 : npMean2 M = M.flatten.sum / ((M.length : ℚ) * (M.length : ℚ)) := by
      unfold npMean2
      rw [List.sum_flatten, sum_map_const_of M M.length List.length hrect]
      push_cast
      rfl
    rw [h2]
  · rfl

/-- C10 (witness): the 2 x 2 identity matrix with one outlier flag set:
avgSimilarity is 2/4 = 1/2 and outlierCount is 1. -/
theorem C10_witness :
    (∀ row ∈ [[(1 : ℚ), 0], [0, 1]], row.length = [[(1 : ℚ), 0], [0, 1]].length) ∧
    (((generate_evidence_bundle "v" [] [[(1 : ℚ), 0], [0, 1]] [false, true] 80 "t").getField
        "proofOfUsefulWork").bind (fun j => j.getField "avgSimilarity")) =
      some (.rat ([[(1 : ℚ), 0], [0, 1]].flatten.sum /
        (([[(1 : ℚ), 0], [0, 1]].length : ℚ) * ([[(1 : ℚ), 0], [0, 1]].length : ℚ)))) :=
  have h : ∀ row ∈ [[(1 : ℚ), 0], [0, 1]], row.length = [[(1 : ℚ), 0], [0, 1]].length := by
    intro row hrow
    simp only [List.mem_cons, List.not_mem_nil, or_false] at hrow
    rcases hrow with rfl | rfl <;> rfl
  ⟨h, (C10_pouw_fields "v" [] [[(1 : ℚ), 0], [0, 1]] [false, true] 80 "t" h).1⟩

end TrustOps
